import Mathlib

/-!
Verification development for the Kitsu-for-Docker 2FA tooling.

The embedding covers the two components the specification's claims are
about:

* `scripts/zou_2fa_middleware.py` — the request gate (`Enforce2FAMiddleware`):
  `_get_exempt_users`, `_is_exempt_user`, `_has_2fa_enabled`,
  `_is_allowed_route`, `check_2fa_requirement`, `_handle_2fa_required`.
* `scripts/enforce_2fa.py` — the CLI: `get_exempt_users`, `audit_users`,
  `enforce_2fa`.

Python strings are modelled as Lean `String`; the string operations the
scripts use (`lower`, `strip`, `split(',')`, `startswith`, `in`,
`lstrip('/')`) are defined below over the character list so that they
evaluate by kernel reduction.  `lower` is modelled as ASCII lowering
(`Char.toLower`), which agrees with Python `str.lower` on the ASCII email
addresses and paths involved.

Exceptions and I/O outcomes of the Python code are made explicit: the
gate's identity-resolution environment (`GateEnv`) records whether the
session module imports, what resolving the session user yields (including
"an exception was raised"), and likewise for the JWT path; the CLI's
database interactions (`EnforceEnv`) record fetch success, the set of rows
whose UPDATE raises a storage error, and whether COMMIT succeeds.
-/

/-- Python `str.lower()` (ASCII lowering), as used on emails. -/
def pyLower (s : String) : String :=
  String.mk (s.toList.map Char.toLower)

/-- Python `str.strip()`: remove leading and trailing whitespace. -/
def pyStrip (s : String) : String :=
  String.mk (((s.toList.dropWhile Char.isWhitespace).reverse.dropWhile
    Char.isWhitespace).reverse)

/-- Helper for `splitComma`: accumulate characters until a comma. -/
def splitCommaAux : List Char → List Char → List String
  | [], acc => [String.mk acc.reverse]
  | c :: rest, acc =>
    if c = ',' then String.mk acc.reverse :: splitCommaAux rest []
    else splitCommaAux rest (c :: acc)

/-- Python `s.split(',')`. -/
def splitComma (s : String) : List String :=
  splitCommaAux s.toList []

/-- Python `s.startswith(p)`. -/
def strStartsWith (s p : String) : Bool :=
  p.toList.isPrefixOf s.toList

/-- Boolean infix test on lists (for Python's substring `in`). -/
def listInfixOf [DecidableEq α] : List α → List α → Bool
  | pat, [] => pat.isEmpty
  | pat, a :: rest => pat.isPrefixOf (a :: rest) || listInfixOf pat rest

/-- Python `pat in s` on strings (substring containment). -/
def strContainsSub (s pat : String) : Bool :=
  listInfixOf pat.toList s.toList

/-- Python `s.lstrip('/')`: drop every leading slash. -/
def lstripSlashes (s : String) : String :=
  String.mk (s.toList.dropWhile (fun c => c = '/'))

/-! ## Request gate (`scripts/zou_2fa_middleware.py`) -/

/-- The attributes of `current_user` / the JWT person record that the gate
reads: email (may be absent) and the three 2FA-method flags. -/
structure User where
  email : Option String
  totp_enabled : Bool
  email_otp_enabled : Bool
  fido_enabled : Bool
  deriving DecidableEq

/-- The middleware state set up in `Enforce2FAMiddleware.__init__`:
the `REQUIRE_2FA` flag and the loaded exempt-user list. -/
structure Middleware where
  require_2fa : Bool
  exempt_users : List String
  deriving DecidableEq

/-- The parts of the Flask `request` object the gate reads: path, method,
`is_json`, and the `Accept` / `X-Requested-With` headers (defaulted to `""`
when absent, as `headers.get(..., '')` does). -/
structure Request where
  path : String
  method : String
  is_json : Bool
  accept : String
  x_requested_with : String
  deriving DecidableEq

/-- Body of a blocking response: the JSON payload built by
`_handle_2fa_required` for API requests, or the fixed HTML page (source
lines 286-404) for web requests.  The HTML template contains the
human-readable message and a redirect hint but no `2fa_required` field. -/
inductive RespBody where
  | jsonBody (error : Bool) (message : String) (twofa_required : Bool)
      (redirect_to : String) (user_email : Option String)
  | htmlBody
  deriving DecidableEq

/-- A terminal response produced by the gate. -/
structure Response where
  statusCode : Nat
  body : RespBody
  deriving DecidableEq

/-- Outcome of the before-request hook: `Allow` models `return None`
(pass-through), `Block` models returning a terminal response. -/
inductive GateDecision where
  | Allow
  | Block (resp : Response)
  deriving DecidableEq

/-- Whether a response body carries the field `2fa_required: true`
(only the JSON payload of `_handle_2fa_required` does; the HTML page has
no such field). -/
def body_has_2fa_required : RespBody → Bool
  | RespBody.jsonBody _ _ t _ _ => t
  | RespBody.htmlBody => false

/-- The message text used by `_handle_2fa_required`. -/
def requiredMessage : String :=
  "Two-Factor Authentication is required for your account. Please configure 2FA in your profile settings before continuing."

/-- The `is_api_request` test of `_handle_2fa_required` (source lines
264-271): path under `/api/`, `/data/` or `/actions/`, JSON body, JSON
`Accept` header, or an `XMLHttpRequest` ajax indicator. -/
def is_api_request (req : Request) : Bool :=
  strStartsWith req.path "/api/" ||
  strStartsWith req.path "/data/" ||
  strStartsWith req.path "/actions/" ||
  req.is_json ||
  strStartsWith req.accept "application/json" ||
  strContainsSub req.x_requested_with "XMLHttpRequest"

/-- The blocking response builder `_handle_2fa_required` (source lines
250-408): JSON with `2fa_required: true` for API requests, the fixed HTML
page otherwise; status 403 in both cases. -/
def handle_2fa_required (req : Request) (user_email : Option String) : Response :=
  if is_api_request req then
    { statusCode := 403
      body := RespBody.jsonBody true requiredMessage true "/profile" user_email }
  else
    { statusCode := 403, body := RespBody.htmlBody }

/-- The middleware's exempt-user loader `_get_exempt_users` (source lines
43-48): split the `2FA_EXEMPT_USERS` value on commas, stripping and
lower-casing each entry; empty value gives the empty list. -/
def _get_exempt_users (cfg : String) : List String :=
  if cfg = "" then [] else (splitComma cfg).map (fun e => pyLower (pyStrip e))

/-- The middleware's `_is_exempt_user` (source lines 50-54): falsy email is
never exempt; otherwise membership of the lower-cased email. -/
def is_exempt_user (exempt_users : List String) (email : Option String) : Bool :=
  match email with
  | none => false
  | some e => if e = "" then false else exempt_users.contains (pyLower e)

/-- The middleware's `_has_2fa_enabled` (source lines 56-65). -/
def has_2fa_enabled : Option User → Bool
  | none => false
  | some u => u.totp_enabled || u.email_otp_enabled || u.fido_enabled

/-- The fixed allow-list of path prefixes of `_is_allowed_route`
(source lines 81-119), in source order. -/
def allowed_patterns : List String :=
  [ "api/auth/login", "auth/login",
    "api/auth/logout", "auth/logout",
    "api/auth/authenticated", "auth/authenticated",
    "api/auth/register", "auth/register",
    "api/auth/totp", "auth/totp",
    "api/auth/fido", "auth/fido",
    "api/auth/email-otp", "auth/email-otp",
    "api/auth/recovery-codes", "auth/recovery-codes",
    "static/",
    "config",
    "_health", "health",
    "api/actions/persons/enable-totp", "actions/persons/enable-totp",
    "api/actions/persons/disable-totp", "actions/persons/disable-totp",
    "api/actions/persons/enable-email-otp", "actions/persons/enable-email-otp",
    "api/actions/persons/disable-email-otp", "actions/persons/disable-email-otp",
    "api/actions/persons/register-fido-device", "actions/persons/register-fido-device",
    "api/actions/persons/unregister-fido-device", "actions/persons/unregister-fido-device",
    "api/actions/persons/generate-recovery-codes", "actions/persons/generate-recovery-codes" ]

/-- The authentication and 2FA-self-configuration entries of
`allowed_patterns` (everything except the static-asset, config and health
entries). -/
def auth_config_routes : List String :=
  [ "api/auth/login", "auth/login",
    "api/auth/logout", "auth/logout",
    "api/auth/authenticated", "auth/authenticated",
    "api/auth/register", "auth/register",
    "api/auth/totp", "auth/totp",
    "api/auth/fido", "auth/fido",
    "api/auth/email-otp", "auth/email-otp",
    "api/auth/recovery-codes", "auth/recovery-codes",
    "api/actions/persons/enable-totp", "actions/persons/enable-totp",
    "api/actions/persons/disable-totp", "actions/persons/disable-totp",
    "api/actions/persons/enable-email-otp", "actions/persons/enable-email-otp",
    "api/actions/persons/disable-email-otp", "actions/persons/disable-email-otp",
    "api/actions/persons/register-fido-device", "actions/persons/register-fido-device",
    "api/actions/persons/unregister-fido-device", "actions/persons/unregister-fido-device",
    "api/actions/persons/generate-recovery-codes", "actions/persons/generate-recovery-codes" ]

/-- The route filter `_is_allowed_route` (source lines 67-140): normalize,
then allow GET requests under `data/` or `api/data/`, then any path that
starts with an allow-list entry, then OPTIONS (CORS preflight). -/
def is_allowed_route (req : Request) (path : String) : Bool :=
  let normalized := lstripSlashes path
  if req.method = "GET" &&
      (strStartsWith normalized "data/" || strStartsWith normalized "api/data/") then
    true
  else if allowed_patterns.any (fun p => strStartsWith normalized p) then
    true
  else if req.method = "OPTIONS" then
    true
  else
    false

/-- Outcome of resolving `flask_login.current_user` inside the gate's outer
`try` block: `exc` models any exception raised while resolving the identity
or while computing its exemption / 2FA status (all land in the
`except Exception` handler at source line 244); `anon` models a falsy or
unauthenticated `current_user`; `authUser` an authenticated one. -/
inductive SessionResult where
  | exc
  | anon
  | authUser (u : User)
  deriving DecidableEq

/-- Outcome of the JWT fallback branch (source lines 191-240):
`noAuthError` models `NoAuthorizationError` / `InvalidHeaderError` from
`verify_jwt_in_request` (explicit `return None`); `otherExc` any other
exception (caught and ignored at line 237); `noIdentity` a falsy
`get_jwt_identity()`; `identityNoUser` a falsy `get_person` result;
`identity` a resolved person record. -/
inductive JwtResult where
  | noAuthError
  | otherExc
  | noIdentity
  | identityNoUser
  | identity (u : User)
  deriving DecidableEq

/-- The gate's per-request identity environment: whether `flask_login`
imports, the session-resolution outcome, whether the JWT modules import,
and the JWT-resolution outcome. -/
structure GateEnv where
  flaskLoginImportOk : Bool
  session : SessionResult
  jwtImportOk : Bool
  jwt : JwtResult
  deriving DecidableEq

/-- The before-request hook `check_2fa_requirement` (source lines 142-248).
Enforcement off or an allowed route passes through; otherwise the session
path is consulted when `flask_login` imports, the JWT path only on its
`ImportError`; every exception outcome resolves to `Allow`; the only block
is `handle_2fa_required` for a non-exempt user with no 2FA method on a
non-GET request. -/
def check_2fa_requirement (mw : Middleware) (env : GateEnv) (req : Request) :
    GateDecision :=
  if mw.require_2fa = false then GateDecision.Allow
  else
    let clean_path := lstripSlashes req.path
    if is_allowed_route req clean_path then GateDecision.Allow
    else
      if env.flaskLoginImportOk then
        match env.session with
        | SessionResult.exc => GateDecision.Allow
        | SessionResult.anon => GateDecision.Allow
        | SessionResult.authUser u =>
          if is_exempt_user mw.exempt_users u.email then GateDecision.Allow
          else if has_2fa_enabled (some u) then GateDecision.Allow
          else if req.method = "GET" then GateDecision.Allow
          else GateDecision.Block (handle_2fa_required req u.email)
      else
        if env.jwtImportOk then
          match env.jwt with
          | JwtResult.noAuthError => GateDecision.Allow
          | JwtResult.otherExc => GateDecision.Allow
          | JwtResult.noIdentity => GateDecision.Allow
          | JwtResult.identityNoUser => GateDecision.Allow
          | JwtResult.identity u =>
            if is_exempt_user mw.exempt_users u.email then GateDecision.Allow
            else if u.totp_enabled || u.email_otp_enabled || u.fido_enabled then
              GateDecision.Allow
            else if req.method = "GET" then GateDecision.Allow
            else GateDecision.Block (handle_2fa_required req u.email)
        else GateDecision.Allow

/-! ## CLI scripts (`scripts/enforce_2fa.py`) -/

/-- A row of the `person` table, with the columns the scripts select:
id, email (nullable), names, the three 2FA flags, the active flag, role. -/
structure PersonRow where
  id : Nat
  email : Option String
  first_name : Option String
  last_name : Option String
  totp_enabled : Bool
  email_otp_enabled : Bool
  fido_enabled : Bool
  active : Bool
  role : String
  deriving DecidableEq

/-- The CLI's exempt-user loader `get_exempt_users` (source lines 44-49):
split the `2FA_EXEMPT_USERS` value on commas, stripping each entry — the
entries are NOT lower-cased (unlike the middleware's `_get_exempt_users`). -/
def get_exempt_users (cfg : String) : List String :=
  if cfg = "" then [] else (splitComma cfg).map (fun e => pyStrip e)

/-- The CLI's exemption test as written inline (`email in exempt_users`,
source lines 87 and 207): plain, case-sensitive membership. -/
def cli_is_exempt (exempt_users : List String) (email : Option String) : Bool :=
  match email with
  | none => false
  | some e => exempt_users.contains e

/-- The inline `has_2fa = totp or email_otp or fido` of the CLI
(source lines 86 and 154). -/
def has_2fa_row (u : PersonRow) : Bool :=
  u.totp_enabled || u.email_otp_enabled || u.fido_enabled

/-- The SELECT of `audit_users` (source lines 61-78): every row with a
non-null email.  (The `ORDER BY email` clause affects presentation only
and is not modelled; the audit result is a count.) -/
def audit_query (db : List PersonRow) : List PersonRow :=
  db.filter (fun u => u.email.isSome)

/-- The three buckets the `audit_users` loop (source lines 84-106) builds:
inactive rows first, then rows with some 2FA method, then active rows with
none.  Exemption plays no part in the bucketing — it is only a display
marker. -/
structure AuditBuckets where
  users_without_2fa : List PersonRow
  users_with_2fa : List PersonRow
  inactive_users : List PersonRow
  deriving DecidableEq

/-- The bucketing of the `audit_users` loop, as order-preserving filters
(the loop appends each row to exactly one bucket in list order). -/
def audit_buckets (users : List PersonRow) : AuditBuckets :=
  { users_without_2fa := users.filter (fun u => u.active && !(has_2fa_row u))
    users_with_2fa := users.filter (fun u => u.active && has_2fa_row u)
    inactive_users := users.filter (fun u => !u.active) }

/-- The audit operation `audit_users` (source lines 52-177): on a storage
error during the fetch it reports `-1`; otherwise it returns
`len(users_without_2fa)`.  The exempt list is consulted only for display
markers and never changes the returned count. -/
def audit_users (exempt_users : List String) (fetchOk : Bool)
    (db : List PersonRow) : Int :=
  if fetchOk then
    ((audit_buckets (audit_query db)).users_without_2fa.length : Int)
  else
    -1

/-- The SELECT of `enforce_2fa` (source lines 189-197): active rows with
all three 2FA flags false and a non-null email. -/
def enforce_query (db : List PersonRow) : List PersonRow :=
  db.filter (fun u =>
    u.active && !u.totp_enabled && !u.email_otp_enabled && !u.fido_enabled &&
    u.email.isSome)

/-- The filtered disable set of `enforce_2fa` (source line 207):
`[u for u in users if u[1] not in exempt_users]`. -/
def users_to_disable (exempt_users : List String) (db : List PersonRow) :
    List PersonRow :=
  (enforce_query db).filter (fun u => !(cli_is_exempt exempt_users u.email))

/-- The storage / operator environment of one `enforce_2fa` run: whether
the fetch succeeds, the ids whose UPDATE raises a storage error (caught
per row at source lines 245-246), whether the final COMMIT succeeds
(a failing COMMIT raises into the outer handler, which rolls back,
source lines 257-260), and the interactive confirmation input. -/
structure EnforceEnv where
  fetchOk : Bool
  writeFails : List Nat
  commitOk : Bool
  confirm : String
  deriving DecidableEq

/-- Observable outcome of one `enforce_2fa` run: the table state after the
run, the returned value, and the ids for which an UPDATE statement was
issued. -/
structure EnforceResult where
  db : List PersonRow
  ret : Int
  updatesAttempted : List Nat
  deriving DecidableEq

/-- The enforcement operation `enforce_2fa` (source lines 180-263).
A fetch error aborts with `-1` (nothing mutated).  An empty candidate or
disable set, or any confirmation whose lower-casing is not `yes`, returns
`0` with nothing mutated.  Otherwise every row of the disable set gets an
UPDATE; rows whose UPDATE raises are skipped (error isolated per row) and
only the others are counted; COMMIT makes the successful updates durable
as one unit, and a COMMIT error rolls the whole batch back and returns
`-1`. -/
def enforce_2fa (exempt_users : List String) (env : EnforceEnv)
    (db : List PersonRow) : EnforceResult :=
  if env.fetchOk = false then
    { db := db, ret := -1, updatesAttempted := [] }
  else
    let users := enforce_query db
    if users.isEmpty then
      { db := db, ret := 0, updatesAttempted := [] }
    else
      let toDisable := users_to_disable exempt_users db
      if toDisable.isEmpty then
        { db := db, ret := 0, updatesAttempted := [] }
      else if pyLower env.confirm ≠ "yes" then
        { db := db, ret := 0, updatesAttempted := [] }
      else
        let okRows := toDisable.filter (fun u => !(env.writeFails.contains u.id))
        let okIds := okRows.map (fun u => u.id)
        if env.commitOk then
          { db := db.map (fun u =>
              if okIds.contains u.id then
                { u with active := false }
              else u)
            ret := (okRows.length : Int)
            updatesAttempted := toDisable.map (fun u => u.id) }
        else
          { db := db, ret := -1, updatesAttempted := toDisable.map (fun u => u.id) }

/-! ## Helper lemmas -/

/-- Dropping a satisfied-by-head property twice is the same as once. -/
theorem dropWhile_self_eq {α : Type} (p : α → Bool) (l : List α) :
    (l.dropWhile p).dropWhile p = l.dropWhile p := by
  induction l with
  | nil => rfl
  | cons a t ih =>
    by_cases h : p a = true
    · simp [List.dropWhile, h, ih]
    · simp [List.dropWhile, h]

/-- Path normalization is idempotent. -/
theorem lstripSlashes_idem (s : String) :
    lstripSlashes (lstripSlashes s) = lstripSlashes s := by
  simp [lstripSlashes, String.toList, dropWhile_self_eq]

/-- The status code of every blocking response is 403. -/
theorem handle_2fa_required_status (req : Request) (e : Option String) :
    (handle_2fa_required req e).statusCode = 403 := by
  unfold handle_2fa_required
  split <;> rfl

/-- A path starting with an allow-list entry makes `_is_allowed_route`
return true, for any method and any request. -/
theorem is_allowed_route_of_mem (req : Request) (path p : String)
    (hp : p ∈ allowed_patterns)
    (hs : strStartsWith (lstripSlashes path) p = true) :
    is_allowed_route req path = true := by
  unfold is_allowed_route
  have hany : allowed_patterns.any
      (fun q => strStartsWith (lstripSlashes path) q) = true :=
    List.any_eq_true.mpr ⟨p, hp, hs⟩
  by_cases hg : (req.method = "GET" &&
      (strStartsWith (lstripSlashes path) "data/" ||
        strStartsWith (lstripSlashes path) "api/data/")) = true <;>
    simp [hg, hany]

/-- An allowed route short-circuits the gate to pass-through. -/
theorem check_allow_of_route (mw : Middleware) (env : GateEnv) (req : Request)
    (h : is_allowed_route req (lstripSlashes req.path) = true) :
    check_2fa_requirement mw env req = GateDecision.Allow := by
  unfold check_2fa_requirement
  by_cases hr : mw.require_2fa = false <;> simp [hr, h]

/-- Every entry of `auth_config_routes` is in the gate's allow-list. -/
theorem auth_config_routes_subset :
    ∀ p ∈ auth_config_routes, p ∈ allowed_patterns := by
  decide

/-! ## Claim theorems -/

/-- Claim C7: for every request whose path, after stripping leading
slashes, begins with an authentication or 2FA-self-configuration endpoint
entry of the fixed allow-list, the gate returns Allow for every caller
state (the whole identity environment is universally quantified, so this
covers the unauthenticated caller) and every method, with enforcement
on. -/
theorem c7_auth_routes_always_allowed (mw : Middleware) (env : GateEnv)
    (req : Request) (p : String)
    (hp : p ∈ auth_config_routes)
    (h2 : mw.require_2fa = true)
    (hs : strStartsWith (lstripSlashes req.path) p = true) :
    check_2fa_requirement mw env req = GateDecision.Allow := by
  have hp' : p ∈ allowed_patterns := auth_config_routes_subset p hp
  have hs' : strStartsWith (lstripSlashes (lstripSlashes req.path)) p = true := by
    rw [lstripSlashes_idem]; exact hs
  exact check_allow_of_route mw env req
    (is_allowed_route_of_mem req (lstripSlashes req.path) p hp' hs')

/-- Witness for C7: an unauthenticated POST to the 2FA-setup endpoint
`/api/auth/totp` is allowed with enforcement on. -/
theorem c7_witness :
    ("api/auth/totp" ∈ auth_config_routes) ∧
    ((true : Bool) = true) ∧
    (strStartsWith (lstripSlashes "/api/auth/totp") "api/auth/totp" = true) ∧
    check_2fa_requirement
      { require_2fa := true, exempt_users := [] }
      { flaskLoginImportOk := true, session := SessionResult.anon,
        jwtImportOk := false, jwt := JwtResult.noIdentity }
      { path := "/api/auth/totp", method := "POST", is_json := true,
        accept := "application/json", x_requested_with := "" } =
      GateDecision.Allow :=
  ⟨by decide, rfl, by decide,
    c7_auth_routes_always_allowed
      { require_2fa := true, exempt_users := [] }
      { flaskLoginImportOk := true, session := SessionResult.anon,
        jwtImportOk := false, jwt := JwtResult.noIdentity }
      { path := "/api/auth/totp", method := "POST", is_json := true,
        accept := "application/json", x_requested_with := "" }
      "api/auth/totp" (by decide) rfl (by decide)⟩

/-- Claim C8: every GET request whose normalized path is under `data/` or
`api/data/` is allowed, for every middleware configuration (so also with
enforcement on) and every identity environment (so also an authenticated
caller with all three 2FA flags false), independently of the allow-list. -/
theorem c8_get_data_allowed (mw : Middleware) (env : GateEnv) (req : Request)
    (hm : req.method = "GET")
    (hd : strStartsWith (lstripSlashes req.path) "data/" = true ∨
      strStartsWith (lstripSlashes req.path) "api/data/" = true) :
    check_2fa_requirement mw env req = GateDecision.Allow := by
  have hroute : is_allowed_route req (lstripSlashes req.path) = true := by
    unfold is_allowed_route
    have hcond : (req.method = "GET" &&
        (strStartsWith (lstripSlashes (lstripSlashes req.path)) "data/" ||
          strStartsWith (lstripSlashes (lstripSlashes req.path)) "api/data/")) =
        true := by
      rw [lstripSlashes_idem, hm]
      rcases hd with h | h <;> simp [h]
    simp [hcond]
  exact check_allow_of_route mw env req hroute

/-- Witness for C8: a GET to `/data/projects` from an authenticated caller
with no 2FA method, enforcement on, is allowed. -/
theorem c8_witness :
    ("GET" = "GET") ∧
    (strStartsWith (lstripSlashes "/data/projects") "data/" = true) ∧
    check_2fa_requirement
      { require_2fa := true, exempt_users := [] }
      { flaskLoginImportOk := true,
        session := SessionResult.authUser
          { email := some "u@x.com", totp_enabled := false,
            email_otp_enabled := false, fido_enabled := false },
        jwtImportOk := true, jwt := JwtResult.noIdentity }
      { path := "/data/projects", method := "GET", is_json := false,
        accept := "application/json", x_requested_with := "" } =
      GateDecision.Allow :=
  ⟨rfl, by decide,
    c8_get_data_allowed
      { require_2fa := true, exempt_users := [] }
      { flaskLoginImportOk := true,
        session := SessionResult.authUser
          { email := some "u@x.com", totp_enabled := false,
            email_otp_enabled := false, fido_enabled := false },
        jwtImportOk := true, jwt := JwtResult.noIdentity }
      { path := "/data/projects", method := "GET", is_json := false,
        accept := "application/json", x_requested_with := "" }
      rfl (Or.inl (by decide))⟩

/-- Claim C9: whenever the session module (`flask_login`) is importable
and reports the caller as not authenticated, the gate returns Allow
without consulting the bearer-token path: the JWT component of the
environment is universally quantified, so the result is Allow for every
JWT state — in particular for a valid bearer token of a non-exempt caller
with zero 2FA methods on a mutating request with enforcement on. -/
theorem c9_session_unauthenticated_allows (mw : Middleware) (env : GateEnv)
    (req : Request)
    (hfl : env.flaskLoginImportOk = true)
    (hs : env.session = SessionResult.anon) :
    check_2fa_requirement mw env req = GateDecision.Allow := by
  unfold check_2fa_requirement
  by_cases h1 : mw.require_2fa = false
  · simp [h1]
  · by_cases h2 : is_allowed_route req (lstripSlashes req.path) = true <;>
      simp [h1, h2, hfl, hs]

/-- Witness for C9: a POST authenticated only by a bearer token for a
non-exempt caller with zero 2FA methods, enforcement on, session module
present but session unauthenticated — allowed, not blocked. -/
theorem c9_witness :
    ((true : Bool) = true) ∧
    (SessionResult.anon = SessionResult.anon) ∧
    check_2fa_requirement
      { require_2fa := true, exempt_users := [] }
      { flaskLoginImportOk := true, session := SessionResult.anon,
        jwtImportOk := true,
        jwt := JwtResult.identity
          { email := some "u@x.com", totp_enabled := false,
            email_otp_enabled := false, fido_enabled := false } }
      { path := "/persons", method := "POST", is_json := true,
        accept := "application/json", x_requested_with := "" } =
      GateDecision.Allow :=
  ⟨rfl, rfl,
    c9_session_unauthenticated_allows
      { require_2fa := true, exempt_users := [] }
      { flaskLoginImportOk := true, session := SessionResult.anon,
        jwtImportOk := true,
        jwt := JwtResult.identity
          { email := some "u@x.com", totp_enabled := false,
            email_otp_enabled := false, fido_enabled := false } }
      { path := "/persons", method := "POST", is_json := true,
        accept := "application/json", x_requested_with := "" }
      rfl rfl⟩

/-- Claim C10: allow-list matching is plain string-prefix matching, so any
request whose stripped path begins with the bare strings `config` or
`health` is allowed — any method, any caller state, enforcement on — not
only the exact config and health endpoints. -/
theorem c10_bare_config_health_allowed (mw : Middleware) (env : GateEnv)
    (req : Request)
    (h : strStartsWith (lstripSlashes req.path) "config" = true ∨
      strStartsWith (lstripSlashes req.path) "health" = true) :
    check_2fa_requirement mw env req = GateDecision.Allow := by
  have hs' : ∃ p ∈ allowed_patterns,
      strStartsWith (lstripSlashes (lstripSlashes req.path)) p = true := by
    rcases h with h | h
    · exact ⟨"config", by decide, by rw [lstripSlashes_idem]; exact h⟩
    · exact ⟨"health", by decide, by rw [lstripSlashes_idem]; exact h⟩
  rcases hs' with ⟨p, hp, hs⟩
  exact check_allow_of_route mw env req
    (is_allowed_route_of_mem req (lstripSlashes req.path) p hp hs)

/-- Witness for C10: a POST to `/configure-anything` from an authenticated
caller with no 2FA method, enforcement on, is allowed because the path
starts with the bare allow-list entry `config`. -/
theorem c10_witness :
    (strStartsWith (lstripSlashes "/configure-anything") "config" = true) ∧
    check_2fa_requirement
      { require_2fa := true, exempt_users := [] }
      { flaskLoginImportOk := true,
        session := SessionResult.authUser
          { email := some "u@x.com", totp_enabled := false,
            email_otp_enabled := false, fido_enabled := false },
        jwtImportOk := true, jwt := JwtResult.noIdentity }
      { path := "/configure-anything", method := "POST", is_json := true,
        accept := "application/json", x_requested_with := "" } =
      GateDecision.Allow :=
  ⟨by decide,
    c10_bare_config_health_allowed
      { require_2fa := true, exempt_users := [] }
      { flaskLoginImportOk := true,
        session := SessionResult.authUser
          { email := some "u@x.com", totp_enabled := false,
            email_otp_enabled := false, fido_enabled := false },
        jwtImportOk := true, jwt := JwtResult.noIdentity }
      { path := "/configure-anything", method := "POST", is_json := true,
        accept := "application/json", x_requested_with := "" }
      (Or.inl (by decide))⟩

/-- Claim C1: with enforcement on and the path not allow-listed, every
exception outcome while resolving identity or computing 2FA status
resolves to Allow — the session-branch exception (caught at source line
244), the JWT-branch exception (caught at line 237), and the JWT-module
`ImportError` (caught at line 241) — and the only non-Allow outcome of the
gate is the deliberate 403 block built by `_handle_2fa_required`. -/
theorem c1_fail_open (mw : Middleware) (env : GateEnv) (req : Request)
    (h2 : mw.require_2fa = true)
    (hroute : is_allowed_route req (lstripSlashes req.path) = false) :
    (env.flaskLoginImportOk = true → env.session = SessionResult.exc →
      check_2fa_requirement mw env req = GateDecision.Allow) ∧
    (env.flaskLoginImportOk = false → env.jwtImportOk = true →
      env.jwt = JwtResult.otherExc →
      check_2fa_requirement mw env req = GateDecision.Allow) ∧
    (env.flaskLoginImportOk = false → env.jwtImportOk = false →
      check_2fa_requirement mw env req = GateDecision.Allow) ∧
    (check_2fa_requirement mw env req = GateDecision.Allow ∨
      ∃ e, check_2fa_requirement mw env req =
          GateDecision.Block (handle_2fa_required req e) ∧
        (handle_2fa_required req e).statusCode = 403) := by
  refine ⟨?_, ?_, ?_, ?_⟩
  · intro hfl hs
    simp [check_2fa_requirement, h2, hroute, hfl, hs]
  · intro hfl hj hw
    simp [check_2fa_requirement, h2, hroute, hfl, hj, hw]
  · intro hfl hj
    simp [check_2fa_requirement, h2, hroute, hfl, hj]
  · simp only [check_2fa_requirement]
    repeat' split
    all_goals
      first
        | (left; rfl)
        | (right; exact ⟨_, rfl, handle_2fa_required_status _ _⟩)

/-- Witness for C1: enforcement on, non-allow-listed POST, session module
importable but identity resolution raises — the gate passes through. -/
theorem c1_witness :
    ((true : Bool) = true) ∧
    (is_allowed_route
      { path := "/persons", method := "POST", is_json := true,
        accept := "application/json", x_requested_with := "" }
      (lstripSlashes "/persons") = false) ∧
    check_2fa_requirement
      { require_2fa := true, exempt_users := [] }
      { flaskLoginImportOk := true, session := SessionResult.exc,
        jwtImportOk := true, jwt := JwtResult.noIdentity }
      { path := "/persons", method := "POST", is_json := true,
        accept := "application/json", x_requested_with := "" } =
      GateDecision.Allow :=
  ⟨rfl, by decide,
    (c1_fail_open
      { require_2fa := true, exempt_users := [] }
      { flaskLoginImportOk := true, session := SessionResult.exc,
        jwtImportOk := true, jwt := JwtResult.noIdentity }
      { path := "/persons", method := "POST", is_json := true,
        accept := "application/json", x_requested_with := "" }
      rfl (by decide)).1 rfl rfl⟩

/-- Claim C2 as stated is false: a POST from an authenticated, non-exempt
caller with zero 2FA methods, enforcement on, to the non-allow-listed path
`/persons` with an HTML `Accept` header is blocked with status 403, but
the response body is the HTML page, which carries no `2fa_required: true`
field (the field exists only in the JSON branch of
`_handle_2fa_required`). -/
theorem c2_counterexample :
    check_2fa_requirement
      { require_2fa := true, exempt_users := [] }
      { flaskLoginImportOk := true,
        session := SessionResult.authUser
          { email := some "u@x.com", totp_enabled := false,
            email_otp_enabled := false, fido_enabled := false },
        jwtImportOk := true, jwt := JwtResult.noIdentity }
      { path := "/persons", method := "POST", is_json := false,
        accept := "text/html", x_requested_with := "" } =
      GateDecision.Block { statusCode := 403, body := RespBody.htmlBody } ∧
    body_has_2fa_required RespBody.htmlBody = false := by
  decide

/-- Claim C2 (amended): for every POST with enforcement on, from a
session-authenticated caller whose email fails the gate's exemption test
and whose three 2FA flags are all false, to a non-allow-listed path, the
gate returns the Block built by `_handle_2fa_required` with status 403;
the body carries `2fa_required: true` exactly when the request is
classified as an API request (path under `/api/`, `/data/` or `/actions/`,
JSON body, JSON `Accept` header, or `XMLHttpRequest` header), and is the
HTML page without that field otherwise. -/
theorem c2_block_post_no_2fa (mw : Middleware) (env : GateEnv) (req : Request)
    (u : User)
    (h2 : mw.require_2fa = true)
    (hroute : is_allowed_route req (lstripSlashes req.path) = false)
    (hfl : env.flaskLoginImportOk = true)
    (hs : env.session = SessionResult.authUser u)
    (hex : is_exempt_user mw.exempt_users u.email = false)
    (ht : u.totp_enabled = false)
    (he : u.email_otp_enabled = false)
    (hfi : u.fido_enabled = false)
    (hm : req.method = "POST") :
    check_2fa_requirement mw env req =
      GateDecision.Block (handle_2fa_required req u.email) ∧
    (handle_2fa_required req u.email).statusCode = 403 ∧
    (is_api_request req = true →
      body_has_2fa_required (handle_2fa_required req u.email).body = true) ∧
    (is_api_request req = false →
      (handle_2fa_required req u.email).body = RespBody.htmlBody) := by
  have hng : ¬ req.method = "GET" := by rw [hm]; decide
  refine ⟨?_, handle_2fa_required_status req u.email, ?_, ?_⟩
  · simp [check_2fa_requirement, h2, hroute, hfl, hs, hex, has_2fa_enabled,
      ht, he, hfi, hng]
  · intro hapi
    simp [handle_2fa_required, hapi, body_has_2fa_required]
  · intro hapi
    simp [handle_2fa_required, hapi]

/-- Witness for C2 (amended): an API-classified POST (JSON body) from an
authenticated caller with no 2FA method is blocked with 403 and the JSON
body carries `2fa_required: true`. -/
theorem c2_block_witness :
    (is_allowed_route
      { path := "/persons", method := "POST", is_json := true,
        accept := "application/json", x_requested_with := "" }
      (lstripSlashes "/persons") = false) ∧
    (is_api_request
      { path := "/persons", method := "POST", is_json := true,
        accept := "application/json", x_requested_with := "" } = true) ∧
    (check_2fa_requirement
      { require_2fa := true, exempt_users := [] }
      { flaskLoginImportOk := true,
        session := SessionResult.authUser
          { email := some "u@x.com", totp_enabled := false,
            email_otp_enabled := false, fido_enabled := false },
        jwtImportOk := true, jwt := JwtResult.noIdentity }
      { path := "/persons", method := "POST", is_json := true,
        accept := "application/json", x_requested_with := "" } =
      GateDecision.Block
        (handle_2fa_required
          { path := "/persons", method := "POST", is_json := true,
            accept := "application/json", x_requested_with := "" }
          (some "u@x.com")) ∧
    (handle_2fa_required
      { path := "/persons", method := "POST", is_json := true,
        accept := "application/json", x_requested_with := "" }
      (some "u@x.com")).statusCode = 403 ∧
    (is_api_request
      { path := "/persons", method := "POST", is_json := true,
        accept := "application/json", x_requested_with := "" } = true →
      body_has_2fa_required
        (handle_2fa_required
          { path := "/persons", method := "POST", is_json := true,
            accept := "application/json", x_requested_with := "" }
          (some "u@x.com")).body = true) ∧
    (is_api_request
      { path := "/persons", method := "POST", is_json := true,
        accept := "application/json", x_requested_with := "" } = false →
      (handle_2fa_required
        { path := "/persons", method := "POST", is_json := true,
          accept := "application/json", x_requested_with := "" }
        (some "u@x.com")).body = RespBody.htmlBody)) :=
  ⟨by decide, by decide,
    c2_block_post_no_2fa
      { require_2fa := true, exempt_users := [] }
      { flaskLoginImportOk := true,
        session := SessionResult.authUser
          { email := some "u@x.com", totp_enabled := false,
            email_otp_enabled := false, fido_enabled := false },
        jwtImportOk := true, jwt := JwtResult.noIdentity }
      { path := "/persons", method := "POST", is_json := true,
        accept := "application/json", x_requested_with := "" }
      { email := some "u@x.com", totp_enabled := false,
        email_otp_enabled := false, fido_enabled := false }
      rfl (by decide) rfl rfl (by decide) rfl rfl rfl rfl⟩

/-- Claim C3 as stated is false: an active account with email
`a@x.com` in the configured exempt set and all three 2FA flags false is
bucketed by `audit_users` into the without-2FA (non-compliant) listing,
and the returned summary count is 1, not 0 — exemption does not move the
account out of the non-compliant bucket or its count. -/
theorem c3_counterexample :
    audit_users ["a@x.com"] true
      [ { id := 1, email := some "a@x.com", first_name := none,
          last_name := none, totp_enabled := false, email_otp_enabled := false,
          fido_enabled := false, active := true, role := "user" } ] = 1 ∧
    ({ id := 1, email := some "a@x.com", first_name := none,
        last_name := none, totp_enabled := false, email_otp_enabled := false,
        fido_enabled := false, active := true, role := "user" } : PersonRow) ∈
      (audit_buckets (audit_query
        [ { id := 1, email := some "a@x.com", first_name := none,
            last_name := none, totp_enabled := false, email_otp_enabled := false,
            fido_enabled := false, active := true, role := "user" } ])).users_without_2fa := by
  decide

/-- Claim C3 (amended): `audit_users` has no Exempt bucket: every fetched
active account with all three 2FA flags false — whether or not its email
is in the ExemptSet — lands in the without-2FA (non-compliant) listing,
and the summary count is independent of the exempt list (exemption is
display-only in the audit; it removes accounts only from `enforce_2fa`'s
disable set). -/
theorem c3_audit_counts_exempt (exempt_users : List String)
    (db : List PersonRow) (u : PersonRow)
    (hu : u ∈ audit_query db)
    (ha : u.active = true)
    (h2 : has_2fa_row u = false) :
    u ∈ (audit_buckets (audit_query db)).users_without_2fa ∧
    audit_users exempt_users true db = audit_users [] true db := by
  constructor
  · exact List.mem_filter.mpr ⟨hu, by simp [ha, h2]⟩
  · rfl

/-- Witness for C3 (amended): the exempt active no-2FA account of the
counterexample is in the without-2FA bucket and the count ignores the
exempt list. -/
theorem c3_witness :
    (({ id := 1, email := some "a@x.com", first_name := none,
        last_name := none, totp_enabled := false, email_otp_enabled := false,
        fido_enabled := false, active := true, role := "user" } : PersonRow) ∈
      audit_query
        [ { id := 1, email := some "a@x.com", first_name := none,
            last_name := none, totp_enabled := false, email_otp_enabled := false,
            fido_enabled := false, active := true, role := "user" } ]) ∧
    (({ id := 1, email := some "a@x.com", first_name := none,
        last_name := none, totp_enabled := false, email_otp_enabled := false,
        fido_enabled := false, active := true, role := "user" } : PersonRow).active
      = true) ∧
    (has_2fa_row
      { id := 1, email := some "a@x.com", first_name := none,
        last_name := none, totp_enabled := false, email_otp_enabled := false,
        fido_enabled := false, active := true, role := "user" } = false) ∧
    (({ id := 1, email := some "a@x.com", first_name := none,
        last_name := none, totp_enabled := false, email_otp_enabled := false,
        fido_enabled := false, active := true, role := "user" } : PersonRow) ∈
      (audit_buckets (audit_query
        [ { id := 1, email := some "a@x.com", first_name := none,
            last_name := none, totp_enabled := false, email_otp_enabled := false,
            fido_enabled := false, active := true, role := "user" } ])).users_without_2fa ∧
    audit_users ["a@x.com"] true
      [ { id := 1, email := some "a@x.com", first_name := none,
          last_name := none, totp_enabled := false, email_otp_enabled := false,
          fido_enabled := false, active := true, role := "user" } ] =
    audit_users [] true
      [ { id := 1, email := some "a@x.com", first_name := none,
          last_name := none, totp_enabled := false, email_otp_enabled := false,
          fido_enabled := false, active := true, role := "user" } ]) :=
  ⟨by decide, rfl, rfl,
    c3_audit_counts_exempt ["a@x.com"]
      [ { id := 1, email := some "a@x.com", first_name := none,
          last_name := none, totp_enabled := false, email_otp_enabled := false,
          fido_enabled := false, active := true, role := "user" } ]
      { id := 1, email := some "a@x.com", first_name := none,
        last_name := none, totp_enabled := false, email_otp_enabled := false,
        fido_enabled := false, active := true, role := "user" }
      (by decide) rfl rfl⟩

/-- Claim C4 as stated is false: for the configured exempt list
`A@X.com`, the CLI loader stores the entry as `A@X.com` — not
lower-cased — so the CLI membership test rejects the stored account email
`a@x.com`, while the gate stores `a@x.com` and accepts it; the two
components disagree on the same configuration and account. -/
theorem c4_counterexample :
    get_exempt_users "A@X.com" = ["A@X.com"] ∧
    _get_exempt_users "A@X.com" = ["a@x.com"] ∧
    cli_is_exempt (get_exempt_users "A@X.com") (some "a@x.com") = false ∧
    is_exempt_user (_get_exempt_users "A@X.com") (some "a@x.com") = true := by
  decide

/-- Claim C4 (amended): only the gate stores exempt entries lower-cased:
for every configured exempt-email list, the gate's loaded list equals the
CLI's loaded list with each entry lower-cased, while the CLI stores the
entries merely stripped, with letter case preserved, and tests raw string
membership — so CLI exempt-membership is case-sensitive while gate
exempt-membership is case-insensitive. -/
theorem c4_only_gate_lowercases (cfg : String) :
    _get_exempt_users cfg = (get_exempt_users cfg).map pyLower := by
  unfold _get_exempt_users get_exempt_users
  by_cases h : cfg = "" <;> simp [h, List.map_map, Function.comp]

/-- Claim C5: with any confirmation input whose lower-casing is not
`yes`, `enforce_2fa` issues no UPDATE, leaves every row of the table
unchanged, and (whenever the fetch itself succeeded, so the run reaches
the confirmation logic at all) returns 0. -/
theorem c5_no_mutation_without_yes (exempt_users : List String)
    (env : EnforceEnv) (db : List PersonRow)
    (hc : pyLower env.confirm ≠ "yes") :
    (enforce_2fa exempt_users env db).updatesAttempted = [] ∧
    (enforce_2fa exempt_users env db).db = db ∧
    (env.fetchOk = true → (enforce_2fa exempt_users env db).ret = 0) := by
  by_cases hf : env.fetchOk = false
  · simp [enforce_2fa, hf]
  · have hf' : env.fetchOk = true := by
      revert hf
      rcases env.fetchOk <;> simp
    by_cases h1 : (enforce_query db).isEmpty <;>
      by_cases h2 : (users_to_disable exempt_users db).isEmpty <;>
        simp [enforce_2fa, hf', h1, h2, hc]

/-- Witness for C5: declining with `no` on a table with one disable
candidate mutates nothing and returns 0. -/
theorem c5_witness :
    (pyLower "no" ≠ "yes") ∧
    ((enforce_2fa []
      { fetchOk := true, writeFails := [], commitOk := true, confirm := "no" }
      [ { id := 1, email := some "a@x.com", first_name := none,
          last_name := none, totp_enabled := false, email_otp_enabled := false,
          fido_enabled := false, active := true, role := "user" } ]).updatesAttempted = [] ∧
    (enforce_2fa []
      { fetchOk := true, writeFails := [], commitOk := true, confirm := "no" }
      [ { id := 1, email := some "a@x.com", first_name := none,
          last_name := none, totp_enabled := false, email_otp_enabled := false,
          fido_enabled := false, active := true, role := "user" } ]).db =
      [ { id := 1, email := some "a@x.com", first_name := none,
          last_name := none, totp_enabled := false, email_otp_enabled := false,
          fido_enabled := false, active := true, role := "user" } ] ∧
    ((true : Bool) = true → (enforce_2fa []
      { fetchOk := true, writeFails := [], commitOk := true, confirm := "no" }
      [ { id := 1, email := some "a@x.com", first_name := none,
          last_name := none, totp_enabled := false, email_otp_enabled := false,
          fido_enabled := false, active := true, role := "user" } ]).ret = 0)) :=
  ⟨by decide,
    c5_no_mutation_without_yes []
      { fetchOk := true, writeFails := [], commitOk := true, confirm := "no" }
      [ { id := 1, email := some "a@x.com", first_name := none,
          last_name := none, totp_enabled := false, email_otp_enabled := false,
          fido_enabled := false, active := true, role := "user" } ]
      (by decide)⟩

/-- Claim C6: in the mutation phase of `enforce_2fa` (fetch succeeded,
affirmative confirmation, non-empty disable set), an UPDATE error on one
row is isolated to that row: an UPDATE is issued for every row of the
disable set, the returned count is the number of rows whose UPDATE
succeeded, the successful mutations are committed as one unit (exactly the
rows with successful UPDATEs have `active` flipped to false, every other
row is unchanged), and a storage error at COMMIT rolls the whole batch
back — the table is unchanged and the result is the sentinel `-1`. -/
theorem c6_mutation_isolated_per_row (exempt_users : List String)
    (env : EnforceEnv) (db : List PersonRow)
    (hf : env.fetchOk = true)
    (hc : pyLower env.confirm = "yes")
    (hne : users_to_disable exempt_users db ≠ []) :
    (enforce_2fa exempt_users env db).updatesAttempted =
      (users_to_disable exempt_users db).map (fun u => u.id) ∧
    (env.commitOk = true →
      (enforce_2fa exempt_users env db).ret =
        (((users_to_disable exempt_users db).filter
          (fun u => !(env.writeFails.contains u.id))).length : Int) ∧
      (enforce_2fa exempt_users env db).db =
        db.map (fun u =>
          if (((users_to_disable exempt_users db).filter
              (fun v => !(env.writeFails.contains v.id))).map
                (fun v => v.id)).contains u.id then
            { u with active := false }
          else u)) ∧
    (env.commitOk = false →
      (enforce_2fa exempt_users env db).ret = -1 ∧
      (enforce_2fa exempt_users env db).db = db) := by
  have hq : enforce_query db ≠ [] := by
    intro h
    apply hne
    unfold users_to_disable
    rw [h]
    rfl
  have hq' : (enforce_query db).isEmpty = false := by
    rcases h : (enforce_query db).isEmpty
    · rfl
    · exact absurd (List.isEmpty_iff.mp h) hq
  have hne' : (users_to_disable exempt_users db).isEmpty = false := by
    rcases h : (users_to_disable exempt_users db).isEmpty
    · rfl
    · exact absurd (List.isEmpty_iff.mp h) hne
  rcases hcm : env.commitOk <;>
    refine ⟨?_, ?_, ?_⟩ <;>
      simp [enforce_2fa, hf, hq', hne', hc, hcm]

/-- Witness for C6: two disable candidates, the UPDATE for id 1 raises and
is skipped, the one for id 2 succeeds; COMMIT succeeds: both UPDATEs were
issued, the count is 1, row 2 is deactivated and row 1 is untouched. -/
theorem c6_witness :
    ((true : Bool) = true) ∧
    (pyLower "yes" = "yes") ∧
    (users_to_disable []
      [ { id := 1, email := some "a@x.com", first_name := none,
          last_name := none, totp_enabled := false, email_otp_enabled := false,
          fido_enabled := false, active := true, role := "user" },
        { id := 2, email := some "b@x.com", first_name := none,
          last_name := none, totp_enabled := false, email_otp_enabled := false,
          fido_enabled := false, active := true, role := "user" } ] ≠ []) ∧
    ((enforce_2fa []
      { fetchOk := true, writeFails := [1], commitOk := true, confirm := "yes" }
      [ { id := 1, email := some "a@x.com", first_name := none,
          last_name := none, totp_enabled := false, email_otp_enabled := false,
          fido_enabled := false, active := true, role := "user" },
        { id := 2, email := some "b@x.com", first_name := none,
          last_name := none, totp_enabled := false, email_otp_enabled := false,
          fido_enabled := false, active := true, role := "user" } ]).updatesAttempted =
      (users_to_disable []
        [ { id := 1, email := some "a@x.com", first_name := none,
            last_name := none, totp_enabled := false, email_otp_enabled := false,
            fido_enabled := false, active := true, role := "user" },
          { id := 2, email := some "b@x.com", first_name := none,
            last_name := none, totp_enabled := false, email_otp_enabled := false,
            fido_enabled := false, active := true, role := "user" } ]).map
        (fun u => u.id) ∧
    ((true : Bool) = true →
      (enforce_2fa []
        { fetchOk := true, writeFails := [1], commitOk := true, confirm := "yes" }
        [ { id := 1, email := some "a@x.com", first_name := none,
            last_name := none, totp_enabled := false, email_otp_enabled := false,
            fido_enabled := false, active := true, role := "user" },
          { id := 2, email := some "b@x.com", first_name := none,
            last_name := none, totp_enabled := false, email_otp_enabled := false,
            fido_enabled := false, active := true, role := "user" } ]).ret =
        (((users_to_disable []
          [ { id := 1, email := some "a@x.com", first_name := none,
              last_name := none, totp_enabled := false, email_otp_enabled := false,
              fido_enabled := false, active := true, role := "user" },
            { id := 2, email := some "b@x.com", first_name := none,
              last_name := none, totp_enabled := false, email_otp_enabled := false,
              fido_enabled := false, active := true, role := "user" } ]).filter
          (fun u => !(([1] : List Nat).contains u.id))).length : Int) ∧
      (enforce_2fa []
        { fetchOk := true, writeFails := [1], commitOk := true, confirm := "yes" }
        [ { id := 1, email := some "a@x.com", first_name := none,
            last_name := none, totp_enabled := false, email_otp_enabled := false,
            fido_enabled := false, active := true, role := "user" },
          { id := 2, email := some "b@x.com", first_name := none,
            last_name := none, totp_enabled := false, email_otp_enabled := false,
            fido_enabled := false, active := true, role := "user" } ]).db =
        ([ { id := 1, email := some "a@x.com", first_name := none,
             last_name := none, totp_enabled := false, email_otp_enabled := false,
             fido_enabled := false, active := true, role := "user" },
           { id := 2, email := some "b@x.com", first_name := none,
             last_name := none, totp_enabled := false, email_otp_enabled := false,
             fido_enabled := false, active := true, role := "user" } ] :
            List PersonRow).map (fun u =>
          if (((users_to_disable []
              [ { id := 1, email := some "a@x.com", first_name := none,
                  last_name := none, totp_enabled := false,
                  email_otp_enabled := false, fido_enabled := false,
                  active := true, role := "user" },
                { id := 2, email := some "b@x.com", first_name := none,
                  last_name := none, totp_enabled := false,
                  email_otp_enabled := false, fido_enabled := false,
                  active := true, role := "user" } ]).filter
              (fun v => !(([1] : List Nat).contains v.id))).map
                (fun v => v.id)).contains u.id then
            { u with active := false }
          else u)) ∧
    ((true : Bool) = false →
      (enforce_2fa []
        { fetchOk := true, writeFails := [1], commitOk := true, confirm := "yes" }
        [ { id := 1, email := some "a@x.com", first_name := none,
            last_name := none, totp_enabled := false, email_otp_enabled := false,
            fido_enabled := false, active := true, role := "user" },
          { id := 2, email := some "b@x.com", first_name := none,
            last_name := none, totp_enabled := false, email_otp_enabled := false,
            fido_enabled := false, active := true, role := "user" } ]).ret = -1 ∧
      (enforce_2fa []
        { fetchOk := true, writeFails := [1], commitOk := true, confirm := "yes" }
        [ { id := 1, email := some "a@x.com", first_name := none,
            last_name := none, totp_enabled := false, email_otp_enabled := false,
            fido_enabled := false, active := true, role := "user" },
          { id := 2, email := some "b@x.com", first_name := none,
            last_name := none, totp_enabled := false, email_otp_enabled := false,
            fido_enabled := false, active := true, role := "user" } ]).db =
        [ { id := 1, email := some "a@x.com", first_name := none,
            last_name := none, totp_enabled := false, email_otp_enabled := false,
            fido_enabled := false, active := true, role := "user" },
          { id := 2, email := some "b@x.com", first_name := none,
            last_name := none, totp_enabled := false, email_otp_enabled := false,
            fido_enabled := false, active := true, role := "user" } ])) :=
  ⟨rfl, by decide, by decide,
    c6_mutation_isolated_per_row []
      { fetchOk := true, writeFails := [1], commitOk := true, confirm := "yes" }
      [ { id := 1, email := some "a@x.com", first_name := none,
          last_name := none, totp_enabled := false, email_otp_enabled := false,
          fido_enabled := false, active := true, role := "user" },
        { id := 2, email := some "b@x.com", first_name := none,
          last_name := none, totp_enabled := false, email_otp_enabled := false,
          fido_enabled := false, active := true, role := "user" } ]
      rfl (by decide) (by decide)⟩
